import Mathlib

/-!
Verification of the irisett active-monitoring engine.

This file shallowly embeds the parts of `irisett/monitor/active.py`,
`irisett/nagios.py` and `irisett/errors.py` that the checked claims are
about: the nagios plugin runner and its exit-code classification, the
per-monitor check-outcome pipeline (consecutive-check counters, the
state machine with hysteresis thresholds, alert-interval creation and
closing), the monitor manager's concurrency cap, monitor deletion and
purging, argument validation, and the enabled-status setters.

Python coroutines are embedded as pure state-passing functions; the
database is embedded as explicit lists of rows; sources of
nondeterminism (wall-clock time, random delays, the plugin subprocess
outcome) are passed in as explicit parameters.
-/

namespace Irisett

/-- Monitor states / raw check outcomes (the strings 'UP', 'DOWN', 'UNKNOWN'
used throughout `active.py`). -/
inductive CheckState where
  | UP : CheckState
  | DOWN : CheckState
  | UNKNOWN : CheckState
deriving DecidableEq, Repr

/-- `DEFAULT_MONITOR_INTERVAL = 180` from `active.py`. -/
def DEFAULT_MONITOR_INTERVAL : Nat := 180

/-- `DOWN_THRESHOLD = 3` from `active.py`. -/
def DOWN_THRESHOLD : Nat := 3

/-- `UNKNOWN_THRESHOLD = 5` from `active.py`. -/
def UNKNOWN_THRESHOLD : Nat := 5

/-! ## nagios.py : the plugin runner -/

def STATUS_OK : Int := 0

def STATUS_WARNING : Int := 1

def STATUS_CRITICAL : Int := 2

def STATUS_UNKNOWN : Int := 3

/-- A Python byte string, embedded as its list of byte values (each < 256). -/
abbrev ByteStr := List Nat

/-- `nagios.decode_plugin_output` for a byte string input: decode from
latin-1 (each byte maps directly to the code point of the same value, so
the decode never fails and the except branch is dead). -/
def decode_plugin_output (output : ByteStr) : String :=
  String.mk (output.map (fun b => Char.ofNat b))

/-- `nagios.parse_plugin_output`: split the decoded output into the text part
(before the first pipe character, stripped) and the performance data list
(the remaining pipe-separated fields). -/
def parse_plugin_output (output : ByteStr) : String × List String :=
  let s := decode_plugin_output output
  if s.contains '|' then
    match s.splitOn "|" with
    | [] => (s.trim, [])
    | text :: perf => (text.trim, perf)
  else
    (s.trim, [])

/-- The outcome of `asyncio.create_subprocess_exec` + `communicate` for one
plugin execution: either the executable was missing (`FileNotFoundError`),
or the process ran and produced an exit code plus stdout/stderr bytes. -/
inductive SpawnResult where
  | fileNotFound : SpawnResult
  | proc (returncode : Int) (stdout_data stderr_data : ByteStr) : SpawnResult
deriving DecidableEq, Repr

/-- A plugin message as carried by the engine: Python lets `msg` be either a
`str` or a `bytes` value depending on which code path produced it. -/
inductive PluginMsg where
  | str (s : String) : PluginMsg
  | bytes (b : ByteStr) : PluginMsg
deriving DecidableEq, Repr

/-- The result of `nagios.run_plugin` as seen by its caller: a normal return,
a raised `MonitorFailedError` (carrying either the raw bytes or parsed text),
or a raised plain `NagiosError`. -/
inductive NagiosResult where
  | ok (text : String) (perf : List String) : NagiosResult
  | monitorFailed (msg : PluginMsg) : NagiosResult
  | nagiosError (msg : String) : NagiosResult
deriving DecidableEq, Repr

/-- `nagios.run_plugin`: spawn the plugin; `FileNotFoundError` becomes
`NagiosError('executable not found')`; combine stdout and stderr; an exit
code outside {0, 1, 2} raises `MonitorFailedError` with the raw bytes;
exit code 2 raises `MonitorFailedError` with the parsed text; exit codes
0 and 1 return the parsed text and performance data. -/
def run_plugin : SpawnResult → NagiosResult
  | .fileNotFound => .nagiosError "executable not found"
  | .proc rc stdout_data stderr_data =>
    let std_data := stdout_data ++ stderr_data
    if rc = STATUS_OK ∨ rc = STATUS_WARNING ∨ rc = STATUS_CRITICAL then
      let parsed := parse_plugin_output std_data
      if rc = STATUS_OK ∨ rc = STATUS_WARNING then
        .ok parsed.1 parsed.2
      else
        .monitorFailed (.str parsed.1)
    else
      .monitorFailed (.bytes std_data)

/-- The try/except classification in `ActiveMonitor._run` (active.py lines
436-447): a normal return is raw state UP with the text; `MonitorFailedError`
is raw state DOWN with the carried payload; any other `NagiosError` is raw
state UNKNOWN with the stringified error. -/
def classify_result : NagiosResult → CheckState × PluginMsg
  | .ok text _perf => (.UP, .str text)
  | .monitorFailed m => (.DOWN, m)
  | .nagiosError e => (.UNKNOWN, .str e)

/-! ## Message storage (active.py lines 448-451)

`msg = msg[:199]` truncates a `str` to 199 code points and a `bytes` value
to 199 bytes; a `bytes` value is then decoded with
`msg.decode('utf-8', errors='ignore')`.  The UTF-8 decoder below follows
Python's codec: well-formed sequences (with the usual restrictions ruling
out overlong forms, surrogates and values above U+10FFFF) decode to their
code point; an ill-formed sequence invokes the error handler once per
maximal subpart and decoding resumes after it.  The handler is a parameter:
`[]` embeds `errors='ignore'` (drop), `[U+FFFD]` embeds `errors='replace'`. -/

/-- Lower bound for the first continuation byte of a multi-byte sequence
(special-cased for leads 0xE0 and 0xF0 to rule out overlong forms). -/
def utf8_cont_lo (b0 : Nat) : Nat :=
  if b0 = 224 then 160 else if b0 = 240 then 144 else 128

/-- Upper bound for the first continuation byte of a multi-byte sequence
(special-cased for leads 0xED and 0xF4 to rule out surrogates and values
above U+10FFFF). -/
def utf8_cont_hi (b0 : Nat) : Nat :=
  if b0 = 237 then 159 else if b0 = 244 then 143 else 191

/-- One pass of UTF-8 decoding with explicit fuel (the fuel is at least the
number of remaining bytes at every call, so it never runs out). -/
def utf8_decode_go (onErr : List Char) : Nat → List Nat → List Char
  | 0, _ => []
  | _ + 1, [] => []
  | fuel + 1, b0 :: rest =>
    if b0 < 128 then
      Char.ofNat b0 :: utf8_decode_go onErr fuel rest
    else if 194 ≤ b0 ∧ b0 ≤ 223 then
      match rest with
      | [] => onErr
      | b1 :: rest2 =>
        if 128 ≤ b1 ∧ b1 ≤ 191 then
          Char.ofNat ((b0 - 192) * 64 + (b1 - 128)) :: utf8_decode_go onErr fuel rest2
        else
          onErr ++ utf8_decode_go onErr fuel (b1 :: rest2)
    else if 224 ≤ b0 ∧ b0 ≤ 239 then
      match rest with
      | [] => onErr
      | b1 :: rest2 =>
        if utf8_cont_lo b0 ≤ b1 ∧ b1 ≤ utf8_cont_hi b0 then
          match rest2 with
          | [] => onErr
          | b2 :: rest3 =>
            if 128 ≤ b2 ∧ b2 ≤ 191 then
              Char.ofNat ((b0 - 224) * 4096 + (b1 - 128) * 64 + (b2 - 128)) ::
                utf8_decode_go onErr fuel rest3
            else
              onErr ++ utf8_decode_go onErr fuel (b2 :: rest3)
        else
          onErr ++ utf8_decode_go onErr fuel (b1 :: rest2)
    else if 240 ≤ b0 ∧ b0 ≤ 244 then
      match rest with
      | [] => onErr
      | b1 :: rest2 =>
        if utf8_cont_lo b0 ≤ b1 ∧ b1 ≤ utf8_cont_hi b0 then
          match rest2 with
          | [] => onErr
          | b2 :: rest3 =>
            if 128 ≤ b2 ∧ b2 ≤ 191 then
              match rest3 with
              | [] => onErr
              | b3 :: rest4 =>
                if 128 ≤ b3 ∧ b3 ≤ 191 then
                  Char.ofNat ((b0 - 240) * 262144 + (b1 - 128) * 4096 +
                      (b2 - 128) * 64 + (b3 - 128)) ::
                    utf8_decode_go onErr fuel rest4
                else
                  onErr ++ utf8_decode_go onErr fuel (b3 :: rest4)
            else
              onErr ++ utf8_decode_go onErr fuel (b2 :: rest3)
        else
          onErr ++ utf8_decode_go onErr fuel (b1 :: rest2)
    else
      onErr ++ utf8_decode_go onErr fuel rest

/-- Decode a byte string as UTF-8 with the given error handler output. -/
def utf8_decode (onErr : List Char) (bs : List Nat) : List Char :=
  utf8_decode_go onErr bs.length bs

/-- The message-storage step of `ActiveMonitor._run` (lines 448-451):
truncate to 199 `str` code points or `bytes` bytes, then decode a byte
string as UTF-8 with `errors='ignore'` (ill-formed subparts dropped). -/
def store_msg : PluginMsg → String
  | .str s => String.mk (s.data.take 199)
  | .bytes b => String.mk (utf8_decode [] (b.take 199))

/-- Modelled from the spec: the spec's variant of the message-storage step,
which says bytes are decoded "as UTF-8 with lossy replacement" (invalid
byte sequences replaced by U+FFFD, not dropped). Used only to compare
against `store_msg`, which embeds the source. -/
def store_msg_spec : PluginMsg → String
  | .str s => String.mk (s.data.take 199)
  | .bytes b => String.mk (utf8_decode [Char.ofNat 65533] (b.take 199))

/-! ## The ActiveMonitor state machine (active.py)

One `ActiveMonitor` instance together with the `active_monitor_alerts`
rows that reference it.  The `active_monitors` row mirrors the in-memory
fields written by `txn_save_state`, so it is not duplicated here; the
`last_check` wall-clock bookkeeping field is irrelevant to every claim
and omitted.  Wall-clock reads (`time.time()`) and the random jitter are
explicit parameters. -/

/-- A row of `active_monitor_alerts` (id, monitor_id, start_ts, end_ts,
alert_msg); `end_ts = 0` is the open-interval sentinel. -/
structure Alert where
  id : Nat
  monitor_id : Nat
  start_ts : Nat
  end_ts : Nat
  alert_msg : String
deriving DecidableEq, Repr

/-- The alert table, with the auto-increment counter that supplies
`cur.lastrowid` for inserted rows (MySQL auto-increment starts at 1). -/
structure MonitorDb where
  alerts : List Alert
  next_alert_id : Nat
deriving DecidableEq, Repr

/-- The in-memory fields of one `ActiveMonitor` instance. -/
structure Monitor where
  id : Nat
  state : CheckState
  state_ts : Nat
  msg : String
  alert_id : Option Nat
  last_check_state : Option CheckState
  consecutive_checks : Nat
  checks_enabled : Bool
  alerts_enabled : Bool
  monitoring : Bool
  deleted : Bool
  pending_reset : Bool
deriving DecidableEq, Repr

/-- Python truthiness of `self.alert_id` (`None` and `0` are falsy). -/
def alert_id_truthy (m : Monitor) : Bool :=
  match m.alert_id with
  | none => false
  | some i => i ≠ 0

/-- Observable side effects of the monitor operations that the claims
talk about (database writes, the reset, scheduled ticks). -/
inductive Effect where
  | dbWrite : Effect
  | monitorReset : Effect
  | scheduleTick (delay : Int) : Effect
deriving DecidableEq, Repr

/-- `ActiveMonitor.txn_create_alert`: insert an open alert row
(start_ts = state_ts, end_ts = 0, alert_msg = msg) and remember its id. -/
def txn_create_alert (m : Monitor) (db : MonitorDb) : Monitor × MonitorDb :=
  ({ m with alert_id := some db.next_alert_id },
   { alerts := db.alerts ++ [⟨db.next_alert_id, m.id, m.state_ts, 0, m.msg⟩],
     next_alert_id := db.next_alert_id + 1 })

/-- `ActiveMonitor.txn_close_alert`: set end_ts = state_ts on the row whose
id is `alert_id`, then clear `alert_id`. -/
def txn_close_alert (m : Monitor) (db : MonitorDb) : Monitor × MonitorDb :=
  ({ m with alert_id := none },
   { db with alerts := db.alerts.map (fun a =>
       if some a.id = m.alert_id then { a with end_ts := m.state_ts } else a) })

/-- `ActiveMonitor.set_up`: close the open alert if `self.alert_id` is
truthy, then save state. -/
def set_up (m : Monitor) (db : MonitorDb) : Monitor × MonitorDb :=
  if alert_id_truthy m then txn_close_alert m db else (m, db)

/-- `ActiveMonitor.set_down`: create a new alert, then save state. -/
def set_down (m : Monitor) (db : MonitorDb) : Monitor × MonitorDb :=
  txn_create_alert m db

/-- `ActiveMonitor.set_unknown`: only save state. -/
def set_unknown (m : Monitor) (db : MonitorDb) : Monitor × MonitorDb :=
  (m, db)

/-- `ActiveMonitor.state_change`: record the new state, timestamp and
message, then run the per-state database transaction.  (The notification
fan-out it may start is fire-and-forget and not modelled.) -/
def state_change (now : Nat) (new_state : CheckState) (msg : String)
    (m : Monitor) (db : MonitorDb) : Monitor × MonitorDb :=
  let m1 := { m with state := new_state, state_ts := now, msg := msg }
  match new_state with
  | .DOWN => set_down m1 db
  | .UP => set_up m1 db
  | .UNKNOWN => set_unknown m1 db

/-- `ActiveMonitor.update_consecutive_checks`: increment the counter when
the raw outcome repeats, reset it to 0 when it changes, and record the
outcome as `last_check_state`. -/
def update_consecutive_checks (st : CheckState) (m : Monitor) : Monitor :=
  let m1 :=
    if some st = m.last_check_state then
      { m with consecutive_checks := m.consecutive_checks + 1 }
    else
      { m with consecutive_checks := 0 }
  { m1 with last_check_state := some st }

/-- `ActiveMonitor.handle_check_result`: the state machine (the if/elif
chain at active.py lines 459-492).  Returns the new monitor and alert
table plus the delay passed to `schedule_monitor`; `jitter` embeds the
`random.randint(-5, 5)` used in the UP/UP branch. -/
def handle_check_result (now : Nat) (jitter : Int) (check_state : CheckState)
    (msg : String) (m : Monitor) (db : MonitorDb) : (Monitor × MonitorDb) × Int :=
  if check_state = .UP ∧ m.state = .UP then
    ((m, db), (DEFAULT_MONITOR_INTERVAL : Int) + jitter)
  else if check_state = .UP ∧ m.state ≠ .UP then
    (state_change now .UP msg m db, (DEFAULT_MONITOR_INTERVAL : Int))
  else if check_state = .DOWN ∧ m.state = .DOWN then
    ((m, db), (DEFAULT_MONITOR_INTERVAL : Int))
  else if check_state = .DOWN ∧ m.state = .UNKNOWN then
    (state_change now .DOWN msg m db, (DEFAULT_MONITOR_INTERVAL : Int))
  else if check_state = .DOWN ∧ m.state ≠ .DOWN then
    if DOWN_THRESHOLD ≤ m.consecutive_checks then
      (state_change now .DOWN msg m db, (DEFAULT_MONITOR_INTERVAL : Int))
    else
      ((m, db), 30)
  else if check_state = .UNKNOWN ∧ m.state = .UNKNOWN then
    ((m, db), (DEFAULT_MONITOR_INTERVAL : Int))
  else if check_state = .UNKNOWN ∧ m.state ≠ .UNKNOWN then
    if UNKNOWN_THRESHOLD ≤ m.consecutive_checks then
      (state_change now .UNKNOWN msg m db, (DEFAULT_MONITOR_INTERVAL : Int))
    else
      ((m, db), 120)
  else
    ((m, db), 0)

/-- `ActiveMonitor.reset_monitor`: when a run is in flight only set the
pending-reset flag; otherwise clear the flag, reset state to UNKNOWN with
a zeroed counter and empty message, close any open alert and save. -/
def reset_monitor (now : Nat) (m : Monitor) (db : MonitorDb) :
    (Monitor × MonitorDb) × List Effect :=
  if m.monitoring then
    (({ m with pending_reset := true }, db), [])
  else
    let m1 := { m with pending_reset := false, state := .UNKNOWN,
                       state_ts := now, msg := "", consecutive_checks := 0 }
    let md := if alert_id_truthy m1 then txn_close_alert m1 db else (m1, db)
    (md, [.monitorReset, .dbWrite])

/-- `ActiveMonitor.schedule_immediately`: force a tick in 5 seconds unless
the monitor is mid-run or deleted. -/
def schedule_immediately (m : Monitor) : List Effect :=
  if ¬ m.monitoring ∧ ¬ m.deleted then [.scheduleTick 5] else []

/-- `ActiveMonitor.set_checks_enabled_status`: no-op when the flag already
has the requested value; otherwise set it, reset the monitor when
disabling, schedule an immediate tick and persist the flag. -/
def set_checks_enabled_status (now : Nat) (checks_enabled : Bool)
    (m : Monitor) (db : MonitorDb) : (Monitor × MonitorDb) × List Effect :=
  if m.checks_enabled = checks_enabled then
    ((m, db), [])
  else
    let m1 := { m with checks_enabled := checks_enabled }
    let r := if checks_enabled = false then reset_monitor now m1 db else ((m1, db), [])
    ((r.1.1, r.1.2), r.2 ++ schedule_immediately r.1.1 ++ [.dbWrite])

/-- `ActiveMonitor.set_alerts_enabled_status`: no-op when the flag already
has the requested value; otherwise set it and persist it. -/
def set_alerts_enabled_status (alerts_enabled : Bool)
    (m : Monitor) (db : MonitorDb) : (Monitor × MonitorDb) × List Effect :=
  if m.alerts_enabled = alerts_enabled then
    ((m, db), [])
  else
    (({ m with alerts_enabled := alerts_enabled }, db), [.dbWrite])

/-- The per-run inputs `ActiveMonitor._run` draws from the environment:
the wall clock, the UP/UP scheduling jitter and the plugin outcome. -/
structure RunEnv where
  now : Nat
  jitter : Int
  result : NagiosResult
deriving Repr

/-- The tail of `ActiveMonitor._run` after the plugin outcome has been
classified into `cs` and the stored message `msg` computed: set
`self.msg`, update the consecutive counter, apply the state machine, and
purge the monitor's alert rows when it was deleted during the run. -/
def run_pipeline_tail (now : Nat) (jitter : Int) (cs : CheckState) (msg : String)
    (m : Monitor) (db : MonitorDb) : (Monitor × MonitorDb) × Int :=
  let m3 := update_consecutive_checks cs { m with msg := msg }
  let r := handle_check_result now jitter cs msg m3 db
  if r.1.1.deleted then
    ((r.1.1, { r.1.2 with alerts := r.1.2.alerts.filter (fun a => a.monitor_id ≠ r.1.1.id) }),
     r.2)
  else
    ((r.1.1, r.1.2), r.2)

/-- `ActiveMonitor._run` after the pending-reset attempt: skip the check
(scheduling the default interval) when checks are disabled, otherwise
classify the plugin outcome, store the truncated message and run the
pipeline tail. -/
def m_run_check (env : RunEnv) (m : Monitor) (db : MonitorDb) :
    (Monitor × MonitorDb) × Option Int :=
  if m.checks_enabled = false then
    ((m, db), some (DEFAULT_MONITOR_INTERVAL : Int))
  else
    let cs := classify_result env.result
    let t := run_pipeline_tail env.now env.jitter cs.1 (store_msg cs.2) m db
    (t.1, some t.2)

/-- `ActiveMonitor._run`: attempt the pending reset first (a no-op setting
the flag again, since `run` has already set `monitoring`), then run the
rest of the pipeline.  Returns the delay handed to `schedule_monitor`,
if any. -/
def m_run (env : RunEnv) (m : Monitor) (db : MonitorDb) :
    (Monitor × MonitorDb) × Option Int :=
  let r0 := if m.pending_reset then (reset_monitor env.now m db).1 else (m, db)
  m_run_check env r0.1 r0.2

/-- `ActiveMonitor.run`: skip when deleted or already mid-run, otherwise
set `monitoring`, execute `_run` and clear `monitoring` again. -/
def run (env : RunEnv) (m : Monitor) (db : MonitorDb) :
    (Monitor × MonitorDb) × Option Int :=
  if m.deleted = true ∨ m.monitoring = true then
    ((m, db), none)
  else
    let r := m_run env { m with monitoring := true } db
    (({ r.1.1 with monitoring := false }, r.1.2), r.2)

/-- The pipeline tail shared by the claims about the state machine: update
the consecutive counter, then apply `handle_check_result` (steps 6 and 7
of a run, after classification and message storage). -/
def process_check (now : Nat) (jitter : Int) (check_state : CheckState)
    (msg : String) (m : Monitor) (db : MonitorDb) : (Monitor × MonitorDb) × Int :=
  handle_check_result now jitter check_state msg (update_consecutive_checks check_state m) db

/-- A completed monitor operation, as observable between pipeline runs:
a full pipeline run, a reset, or one of the enabled-status setters. -/
inductive MonitorOp where
  | runCheck (env : RunEnv) : MonitorOp
  | resetMon (now : Nat) : MonitorOp
  | setChecks (now : Nat) (b : Bool) : MonitorOp
  | setAlerts (b : Bool) : MonitorOp

/-- Apply one monitor operation to the monitor and its alert rows. -/
def apply_op (m : Monitor) (db : MonitorDb) : MonitorOp → Monitor × MonitorDb
  | .runCheck env => (run env m db).1
  | .resetMon now => (reset_monitor now m db).1
  | .setChecks now b => (set_checks_enabled_status now b m db).1
  | .setAlerts b => (set_alerts_enabled_status b m db).1

/-- Apply a sequence of monitor operations in order. -/
def apply_ops (m : Monitor) (db : MonitorDb) : List MonitorOp → Monitor × MonitorDb
  | [] => (m, db)
  | op :: ops =>
    let r := apply_op m db op
    apply_ops r.1 r.2 ops

/-! ## ActiveMonitorManager._run_monitor : the concurrency cap -/

/-- The manager counters touched by `_run_monitor` (active.py lines
209-233); `jobs_deferred` and `total_jobs_run` mirror the statistics
counters of the same names. -/
structure Manager where
  num_running_jobs : Nat
  max_concurrent_jobs : Nat
  jobs_deferred : Nat
  total_jobs_run : Nat
deriving DecidableEq, Repr

/-- The dispatch half of `_run_monitor`: when the looked-up monitor is
missing, do nothing; when `num_running_jobs > max_concurrent_jobs`,
re-schedule the monitor with the delay drawn by `random.randint(10, 30)`
(returned as `some delay`) and bump the deferred counter; otherwise take a
slot and start the run. -/
def run_monitor_dispatch (mgr : Manager) (monitor_present : Bool)
    (rand_delay : Nat) : Manager × Option Nat :=
  if monitor_present = false then
    (mgr, none)
  else if mgr.max_concurrent_jobs < mgr.num_running_jobs then
    ({ mgr with jobs_deferred := mgr.jobs_deferred + 1 }, some rand_delay)
  else
    ({ mgr with num_running_jobs := mgr.num_running_jobs + 1,
                total_jobs_run := mgr.total_jobs_run + 1 }, none)

/-- The completion half of `_run_monitor`: both the exception path (lines
226-227) and the normal path (lines 232-233) decrement the in-flight
count exactly once. -/
def run_monitor_finish (mgr : Manager) (_raised : Bool) : Manager :=
  { mgr with num_running_jobs := mgr.num_running_jobs - 1 }

/-- Scheduler events affecting the in-flight count: a dispatch of a
scheduled monitor, or the completion (normal or raising) of a run that
was started earlier. -/
inductive ManagerEvent where
  | dispatch (monitor_present : Bool) (rand_delay : Nat) : ManagerEvent
  | finish (raised : Bool) : ManagerEvent
deriving DecidableEq, Repr

/-- Effect of one scheduler event on the manager counters. -/
def mgr_step (mgr : Manager) : ManagerEvent → Manager
  | .dispatch p r => (run_monitor_dispatch mgr p r).1
  | .finish b => run_monitor_finish mgr b

/-- Fold a list of scheduler events over the manager counters. -/
def mgr_steps (mgr : Manager) : List ManagerEvent → Manager
  | [] => mgr
  | e :: es => mgr_steps (mgr_step mgr e) es

/-- A finish event is only available while some run is in flight: every
run decrements the count exactly once, on its unique exit path. -/
def valid_event (mgr : Manager) : ManagerEvent → Bool
  | .dispatch _ _ => true
  | .finish _ => 0 < mgr.num_running_jobs

/-- All events of the list are available at the state they fire in. -/
def valid_trace (mgr : Manager) : List ManagerEvent → Bool
  | [] => true
  | e :: es => valid_event mgr e && valid_trace (mgr_step mgr e) es

/-! ## ActiveMonitorDef.validate_monitor_args -/

/-- One row of `active_monitor_def_args`: a parameter of a monitor
definition (display name and description omitted; they do not affect
validation). -/
structure ParamSpec where
  name : String
  required : Bool
  default_value : String
deriving DecidableEq, Repr

/-- The first `arg_spec` entry that is required but missing from the
argument keys (the first loop of `validate_monitor_args`). -/
def find_missing_required (arg_spec : List ParamSpec) (keys : List String) :
    Option ParamSpec :=
  arg_spec.find? (fun a => a.required && ! (a.name ∈ keys))

/-- The first argument key that names no `arg_spec` entry (the second loop
of `validate_monitor_args`). -/
def find_invalid_key (arg_spec : List ParamSpec) (keys : List String) :
    Option String :=
  keys.find? (fun k => ! (k ∈ arg_spec.map ParamSpec.name))

/-- `ActiveMonitorDef.validate_monitor_args` (active.py lines 300-309):
unless `permit_missing`, a required parameter absent from the arguments
raises `InvalidArguments`; an argument key that is not a parameter name
raises `InvalidArguments`; otherwise the call returns `True`.  Raising is
embedded as `Except.error` carrying the exception message. -/
def validate_monitor_args (arg_spec : List ParamSpec)
    (monitor_args : List (String × String)) (permit_missing : Bool) :
    Except String Bool :=
  let keys := monitor_args.map Prod.fst
  match (if permit_missing = false then find_missing_required arg_spec keys else none) with
  | some a => .error ("missing argument " ++ a.name)
  | none =>
    match find_invalid_key arg_spec keys with
    | some k => .error ("invalid argument " ++ k)
    | none => .ok true

/-! ## Parameterized SQL operations (irisett/sql.py executes them through
aiomysql/pymysql, whose `cursor.execute` substitutes one argument per
`%s` placeholder and raises when the counts differ). -/

/-- A SQL parameter value. -/
inductive SqlValue where
  | nat (n : Nat) : SqlValue
  | str (s : String) : SqlValue
deriving DecidableEq, Repr

/-- One parameterized statement handed to `dbcon.operation`. -/
structure SqlOp where
  query : String
  args : List SqlValue
deriving DecidableEq, Repr

/-- Count `%s` placeholders in a character list. -/
def count_placeholders_go : List Char → Nat
  | [] => 0
  | c1 :: rest =>
    (match c1, rest with
     | '%', 's' :: _ => 1
     | _, _ => 0) + count_placeholders_go rest

/-- Count `%s` placeholders in a query string. -/
def count_placeholders (q : String) : Nat :=
  count_placeholders_go q.data

/-- The driver accepts a parameterized statement exactly when the argument
count matches the placeholder count (pymysql raises
`TypeError: not all arguments converted during string formatting`
otherwise, so the statement is never executed). -/
def sql_op_ok (op : SqlOp) : Bool :=
  count_placeholders op.query = op.args.length

/-- `ActiveMonitor.delete` (active.py lines 594-611): a no-op when already
deleted; otherwise mark deleted, drop the instance from the manager's
registry, and either record deleted=true in the database (run in flight)
or purge immediately.  Returns the updated monitor, the remaining
registry ids, the SQL operations issued, and whether the immediate purge
ran. -/
def monitor_delete (now : Nat) (m : Monitor) (registry : List Nat) :
    (Monitor × List Nat) × List SqlOp × Bool :=
  if m.deleted then
    ((m, registry), ([], false))
  else
    let m1 := { m with deleted := true }
    let registry1 := registry.filter (fun i => i ≠ m.id)
    if m1.monitoring then
      ((m1, registry1),
       ([⟨"update active_monitors set deleted=true where id=%s",
          [.nat now, .nat m.id]⟩], false))
    else
      ((m1, registry1), ([], true))

/-! ## The monitor tables (for creation and purge, C9/C5) -/

/-- A row of `active_monitors`. -/
structure MonitorRow where
  id : Nat
  def_id : Nat
  state : String
  state_ts : Nat
  msg : String
  deleted : Bool
deriving DecidableEq, Repr

/-- A row of `active_monitor_args`. -/
structure MonitorArgRow where
  monitor_id : Nat
  name : String
  value : String
deriving DecidableEq, Repr

/-- A row of `active_monitor_contacts`. -/
structure ContactLinkRow where
  active_monitor_id : Nat
  contact_id : Nat
deriving DecidableEq, Repr

/-- A row of `object_metadata` or `object_bindata` (value payload elided;
rows are identified by type, owner id and key). -/
structure MetadataRow where
  object_type : String
  object_id : Nat
  key : String
deriving DecidableEq, Repr

/-- A row of `monitor_group_active_monitors` (group membership). -/
structure GroupMemberRow where
  monitor_group_id : Nat
  active_monitor_id : Nat
deriving DecidableEq, Repr

/-- The tables referencing active monitors, with the auto-increment
counter of `active_monitors`. -/
structure Db where
  active_monitors : List MonitorRow
  active_monitor_args : List MonitorArgRow
  active_monitor_alerts : List Alert
  active_monitor_contacts : List ContactLinkRow
  object_metadata : List MetadataRow
  object_bindata : List MetadataRow
  monitor_group_active_monitors : List GroupMemberRow
  next_monitor_id : Nat
deriving DecidableEq, Repr

/-- `remove_monitor_from_db` (active.py lines 689-707): in one transaction
delete the monitor's rows from `active_monitors`, `active_monitor_args`,
`active_monitor_alerts`, `active_monitor_contacts`, `object_metadata` and
`object_bindata`.  (The source issues no delete against
`monitor_group_active_monitors`.) -/
def remove_monitor_from_db (db : Db) (monitor_id : Nat) : Db :=
  { db with
    active_monitors := db.active_monitors.filter (fun r => r.id ≠ monitor_id),
    active_monitor_args := db.active_monitor_args.filter (fun r => r.monitor_id ≠ monitor_id),
    active_monitor_alerts := db.active_monitor_alerts.filter (fun r => r.monitor_id ≠ monitor_id),
    active_monitor_contacts := db.active_monitor_contacts.filter (fun r => r.active_monitor_id ≠ monitor_id),
    object_metadata := db.object_metadata.filter (fun r => ¬ (r.object_type = "active_monitor" ∧ r.object_id = monitor_id)),
    object_bindata := db.object_bindata.filter (fun r => ¬ (r.object_type = "active_monitor" ∧ r.object_id = monitor_id)) }

/-- `create_active_monitor` (active.py lines 722-741), database part:
validate the arguments against the definition's parameters, then insert
the `active_monitors` row (state UNKNOWN, state_ts 0, empty message) and
one `active_monitor_args` row per argument; the new monitor id is the
auto-increment `cur.lastrowid`. -/
def create_active_monitor (arg_spec : List ParamSpec) (def_id : Nat)
    (args : List (String × String)) (db : Db) : Except String (Db × Nat) :=
  match validate_monitor_args arg_spec args false with
  | .error e => .error e
  | .ok _ =>
    let mid := db.next_monitor_id
    .ok ({ db with
           active_monitors := db.active_monitors ++ [⟨mid, def_id, "UNKNOWN", 0, "", false⟩],
           active_monitor_args := db.active_monitor_args ++ args.map (fun kv => ⟨mid, kv.1, kv.2⟩),
           next_monitor_id := mid + 1 }, mid)

/-- No row of any table that `remove_monitor_from_db` clears, nor of the
group-membership table, references the given monitor id. -/
def no_rows_reference (db : Db) (monitor_id : Nat) : Prop :=
  (∀ r ∈ db.active_monitors, r.id ≠ monitor_id) ∧
  (∀ r ∈ db.active_monitor_args, r.monitor_id ≠ monitor_id) ∧
  (∀ r ∈ db.active_monitor_alerts, r.monitor_id ≠ monitor_id) ∧
  (∀ r ∈ db.active_monitor_contacts, r.active_monitor_id ≠ monitor_id) ∧
  (∀ r ∈ db.object_metadata, r.object_type = "active_monitor" → r.object_id ≠ monitor_id) ∧
  (∀ r ∈ db.object_bindata, r.object_type = "active_monitor" → r.object_id ≠ monitor_id) ∧
  (∀ r ∈ db.monitor_group_active_monitors, r.active_monitor_id ≠ monitor_id)

/-! ## The open-alert invariant (C1) -/

/-- Well-formedness of the alert table: ids are positive and unique, and
the auto-increment counter is ahead of every existing row. -/
def alert_ids_ok (db : MonitorDb) : Prop :=
  1 ≤ db.next_alert_id ∧ (db.alerts.map Alert.id).Nodup ∧
    ∀ a ∈ db.alerts, a.id < db.next_alert_id

/-- When `alert_id` is set it references an existing open alert row of
this monitor (with a positive id below the auto-increment counter). -/
def alert_ref_open (m : Monitor) (db : MonitorDb) : Prop :=
  ∀ i, m.alert_id = some i →
    1 ≤ i ∧ i < db.next_alert_id ∧
      ∃ a ∈ db.alerts, a.id = i ∧ a.end_ts = 0 ∧ a.monitor_id = m.id

/-- The alert-tracking invariant the engine actually maintains for a live
(non-deleted) monitor: `alert_id`, when set, references an open alert row
of the monitor; a DOWN monitor has `alert_id` set; an UP monitor has it
cleared.  (Note that it does not bound the number of open rows.) -/
def alert_inv (m : Monitor) (db : MonitorDb) : Prop :=
  alert_ids_ok db ∧ alert_ref_open m db ∧ m.deleted = false ∧
    (m.state = .DOWN → m.alert_id.isSome = true) ∧
    (m.state = .UP → m.alert_id = none)

/-- A freshly loaded monitor in its initial state (state UNKNOWN, no open
alert, counters zeroed, checks and alerts enabled). -/
def init_monitor (mid : Nat) : Monitor :=
  { id := mid, state := .UNKNOWN, state_ts := 0, msg := "", alert_id := none,
    last_check_state := none, consecutive_checks := 0, checks_enabled := true,
    alerts_enabled := true, monitoring := false, deleted := false,
    pending_reset := false }

/-- An empty alert table. -/
def init_monitor_db : MonitorDb :=
  { alerts := [], next_alert_id := 1 }

/-- A pipeline run whose plugin exited with code 2 (CRITICAL, raw DOWN). -/
def down_run (now : Nat) : MonitorOp :=
  .runCheck { now := now, jitter := 0, result := run_plugin (.proc 2 [67] []) }

/-- A pipeline run whose plugin executable was missing (raw UNKNOWN). -/
def unknown_run (now : Nat) : MonitorOp :=
  .runCheck { now := now, jitter := 0, result := run_plugin .fileNotFound }

/-- A pipeline run whose plugin exited with code 0 (OK, raw UP). -/
def up_run (now : Nat) : MonitorOp :=
  .runCheck { now := now, jitter := 0, result := run_plugin (.proc 0 [79, 75] []) }

/-- The operation sequence refuting the at-most-one-open-interval claim:
one DOWN observation (immediate UNKNOWN→DOWN transition), six UNKNOWN
observations (crossing UNKNOWN_THRESHOLD on the sixth), then one DOWN
observation (immediate UNKNOWN→DOWN transition again). -/
def two_open_alerts_seq : List MonitorOp :=
  [down_run 10, unknown_run 20, unknown_run 30, unknown_run 40, unknown_run 50,
   unknown_run 60, unknown_run 70, down_run 80]

/-- One raw DOWN observation fed through the pipeline's counter update and
state machine; `p` bundles the run's wall-clock time, jitter and message. -/
def down_obs (p : Nat × Int × String) (s : Monitor × MonitorDb) : Monitor × MonitorDb :=
  (process_check p.1 p.2.1 CheckState.DOWN p.2.2 s.1 s.2).1

/-- A monitor with a pending reset requested during an earlier run: it is
DOWN with an open alert, a nonzero consecutive counter, and checks
disabled (the state `set_checks_enabled_status(False)` leaves behind when
called mid-run). -/
def pending_reset_monitor : Monitor :=
  { id := 5, state := .DOWN, state_ts := 100, msg := "m", alert_id := some 1,
    last_check_state := some .DOWN, consecutive_checks := 2, checks_enabled := false,
    alerts_enabled := true, monitoring := false, deleted := false,
    pending_reset := true }

/-- The alert table matching `pending_reset_monitor`: its one open alert. -/
def pending_reset_db : MonitorDb :=
  { alerts := [⟨1, 5, 100, 0, "m"⟩], next_alert_id := 2 }

/-- Run inputs for the pending-reset scenario (the plugin result is
irrelevant: checks are disabled). -/
def pending_reset_env : RunEnv :=
  { now := 200, jitter := 0, result := .ok "OK" [] }

/-- A monitor whose pipeline run is currently in flight. -/
def in_flight_monitor : Monitor :=
  { id := 9, state := .UP, state_ts := 50, msg := "ok", alert_id := none,
    last_check_state := some .UP, consecutive_checks := 4, checks_enabled := true,
    alerts_enabled := true, monitoring := true, deleted := false,
    pending_reset := false }

/-- A monitor in stable state UP whose last raw outcome was UP. -/
def up_monitor : Monitor :=
  { init_monitor 3 with state := .UP, last_check_state := some .UP }

/-- Concrete run inputs (time, jitter, message) for a DOWN observation. -/
def c3_p : Nat × Int × String := (11, 0, "d")

/-- A manager configured with max_concurrent_jobs = 2 and no running jobs
(the configuration of the spec's own concurrency-cap scenario). -/
def c4_mgr : Manager :=
  { num_running_jobs := 0, max_concurrent_jobs := 2, jobs_deferred := 0,
    total_jobs_run := 0 }

/-- Three monitors dispatched while no run has finished yet. -/
def c4_events : List ManagerEvent :=
  [.dispatch true 10, .dispatch true 10, .dispatch true 10]

/-- An empty database whose auto-increment counter is at 1. -/
def c9_db : Db :=
  { active_monitors := [], active_monitor_args := [], active_monitor_alerts := [],
    active_monitor_contacts := [], object_metadata := [], object_bindata := [],
    monitor_group_active_monitors := [], next_monitor_id := 1 }

/-- `c9_db` after creating a monitor of definition 2 with argument
host = h: the inserted `active_monitors` and `active_monitor_args` rows. -/
def c9_db1 : Db :=
  { active_monitors := [⟨1, 2, "UNKNOWN", 0, "", false⟩],
    active_monitor_args := [⟨1, "host", "h"⟩], active_monitor_alerts := [],
    active_monitor_contacts := [], object_metadata := [], object_bindata := [],
    monitor_group_active_monitors := [], next_monitor_id := 2 }

/-! ## Preservation of the alert-tracking invariant -/

theorem alert_inv_congr {m1 m : Monitor} {db : MonitorDb}
    (hid : m1.id = m.id) (hst : m1.state = m.state)
    (hal : m1.alert_id = m.alert_id) (hdel : m1.deleted = m.deleted)
    (h : alert_inv m db) : alert_inv m1 db := by
  obtain ⟨hok, href, hd, hdown, hup⟩ := h
  refine ⟨hok, ?_, ?_, ?_, ?_⟩
  · intro i hi
    rw [hal] at hi
    rcases href i hi with ⟨h1, h2, a, ha, h3, h4, h5⟩
    exact ⟨h1, h2, a, ha, h3, h4, by rw [hid]; exact h5⟩
  · rw [hdel]; exact hd
  · rw [hst, hal]; exact hdown
  · rw [hst, hal]; exact hup

theorem txn_close_alert_ids_ok (m : Monitor) (db : MonitorDb)
    (h : alert_ids_ok db) : alert_ids_ok (txn_close_alert m db).2 := by
  obtain ⟨h1, h2, h3⟩ := h
  unfold txn_close_alert
  dsimp only
  have hmap : ((db.alerts.map fun a =>
      if some a.id = m.alert_id then { a with end_ts := m.state_ts } else a).map Alert.id)
      = db.alerts.map Alert.id := by
    rw [List.map_map]
    apply List.map_congr_left
    intro a _
    by_cases hc : some a.id = m.alert_id <;> simp [hc]
  refine ⟨h1, ?_, ?_⟩
  · rw [hmap]; exact h2
  · intro a ha
    rcases List.mem_map.mp ha with ⟨b, hb, rfl⟩
    split <;> exact h3 b hb

theorem update_consecutive_checks_fields (st : CheckState) (m : Monitor) :
    (update_consecutive_checks st m).alert_id = m.alert_id ∧
      (update_consecutive_checks st m).state = m.state ∧
      (update_consecutive_checks st m).deleted = m.deleted ∧
      (update_consecutive_checks st m).id = m.id := by
  unfold update_consecutive_checks
  dsimp only
  split <;> simp

theorem state_change_inv (now : Nat) (ns : CheckState) (msg : String)
    (m : Monitor) (db : MonitorDb) (h : alert_inv m db) :
    alert_inv (state_change now ns msg m db).1 (state_change now ns msg m db).2 := by
  obtain ⟨⟨hn1, hn2, hn3⟩, href, hdel, hdown, hup⟩ := h
  cases ns with
  | DOWN =>
    unfold state_change set_down txn_create_alert
    dsimp only
    refine ⟨⟨?_, ?_, ?_⟩, ?_, hdel, ?_, ?_⟩
    · show 1 ≤ db.next_alert_id + 1
      omega
    · show ((db.alerts ++ [Alert.mk db.next_alert_id m.id now 0 msg]).map Alert.id).Nodup
      rw [List.map_append, List.nodup_append]
      refine ⟨hn2, List.nodup_singleton _, ?_⟩
      intro x hx hx2
      rcases List.mem_map.mp hx with ⟨b, hb, rfl⟩
      simp only [List.map_cons, List.map_nil, List.mem_singleton] at hx2
      have := hn3 b hb
      omega
    · show ∀ a ∈ db.alerts ++ [Alert.mk db.next_alert_id m.id now 0 msg],
        a.id < db.next_alert_id + 1
      intro a ha
      rcases List.mem_append.mp ha with hl | hr
      · have := hn3 a hl; omega
      · simp only [List.mem_singleton] at hr
        subst hr
        simp
    · intro i hi
      have hi' : db.next_alert_id = i := Option.some.inj hi
      subst hi'
      refine ⟨hn1, ?_, ?_⟩
      · show db.next_alert_id < db.next_alert_id + 1
        omega
      · refine ⟨Alert.mk db.next_alert_id m.id now 0 msg, ?_, rfl, rfl, rfl⟩
        show Alert.mk db.next_alert_id m.id now 0 msg ∈
          db.alerts ++ [Alert.mk db.next_alert_id m.id now 0 msg]
        simp
    · intro _; rfl
    · intro hst; simp at hst
  | UP =>
    unfold state_change set_up
    dsimp only
    split
    · rename_i ht
      refine ⟨txn_close_alert_ids_ok _ _ ⟨hn1, hn2, hn3⟩, ?_, hdel, ?_, ?_⟩
      · intro i hi; simp [txn_close_alert] at hi
      · intro hst; simp [txn_close_alert] at hst
      · intro _; simp [txn_close_alert]
    · rename_i ht
      have hnone : m.alert_id = none := by
        cases halt : m.alert_id with
        | none => rfl
        | some i =>
          rcases href i halt with ⟨hi1, _, _⟩
          exact absurd (by unfold alert_id_truthy; dsimp only; rw [halt]; simp; omega) ht
      refine ⟨⟨hn1, hn2, hn3⟩, ?_, hdel, ?_, ?_⟩
      · intro i hi
        have hi' : m.alert_id = some i := hi
        rw [hnone] at hi'
        cases hi'
      · intro hst; simp at hst
      · intro _; exact hnone
  | UNKNOWN =>
    unfold state_change set_unknown
    dsimp only
    refine ⟨⟨hn1, hn2, hn3⟩, ?_, hdel, ?_, ?_⟩
    · intro i hi
      exact href i hi
    · intro hst; simp at hst
    · intro hst; simp at hst

theorem handle_check_result_inv (now : Nat) (jitter : Int) (cs : CheckState)
    (msg : String) (m : Monitor) (db : MonitorDb) (h : alert_inv m db) :
    alert_inv (handle_check_result now jitter cs msg m db).1.1
      (handle_check_result now jitter cs msg m db).1.2 := by
  unfold handle_check_result
  split_ifs <;> first
    | exact h
    | exact state_change_inv now CheckState.UP msg m db h
    | exact state_change_inv now CheckState.DOWN msg m db h
    | exact state_change_inv now CheckState.UNKNOWN msg m db h

theorem reset_monitor_inv (now : Nat) (m : Monitor) (db : MonitorDb)
    (h : alert_inv m db) :
    alert_inv (reset_monitor now m db).1.1 (reset_monitor now m db).1.2 := by
  obtain ⟨hok, href, hdel, hdown, hup⟩ := h
  unfold reset_monitor
  split
  · exact alert_inv_congr rfl rfl rfl rfl ⟨hok, href, hdel, hdown, hup⟩
  · dsimp only
    split
    · refine ⟨txn_close_alert_ids_ok _ _ hok, ?_, hdel, ?_, ?_⟩
      · intro i hi; simp [txn_close_alert] at hi
      · intro hst; simp [txn_close_alert] at hst
      · intro hst; simp [txn_close_alert] at hst
    · refine ⟨hok, ?_, hdel, ?_, ?_⟩
      · intro i hi
        have hi' : m.alert_id = some i := hi
        rcases href i hi' with ⟨h1, h2, a, ha, h3, h4, h5⟩
        exact ⟨h1, h2, a, ha, h3, h4, h5⟩
      · intro hst; simp at hst
      · intro hst; simp at hst

theorem run_pipeline_tail_inv (now : Nat) (jitter : Int) (cs : CheckState)
    (msg : String) (m : Monitor) (db : MonitorDb) (h : alert_inv m db) :
    alert_inv (run_pipeline_tail now jitter cs msg m db).1.1
      (run_pipeline_tail now jitter cs msg m db).1.2 := by
  have hf := update_consecutive_checks_fields cs { m with msg := msg }
  have h2 : alert_inv (update_consecutive_checks cs { m with msg := msg }) db :=
    alert_inv_congr hf.2.2.2 hf.2.1 hf.1 hf.2.2.1 (alert_inv_congr rfl rfl rfl rfl h)
  have h3 := handle_check_result_inv now jitter cs msg
    (update_consecutive_checks cs { m with msg := msg }) db h2
  simp only [run_pipeline_tail]
  split
  · rename_i hdel
    exact absurd (hdel.symm.trans h3.2.2.1) (by decide)
  · exact h3

theorem m_run_check_inv (env : RunEnv) (m : Monitor) (db : MonitorDb)
    (h : alert_inv m db) :
    alert_inv (m_run_check env m db).1.1 (m_run_check env m db).1.2 := by
  simp only [m_run_check]
  split
  · exact h
  · exact run_pipeline_tail_inv env.now env.jitter (classify_result env.result).1
      (store_msg (classify_result env.result).2) m db h

theorem m_run_inv (env : RunEnv) (m : Monitor) (db : MonitorDb)
    (h : alert_inv m db) :
    alert_inv (m_run env m db).1.1 (m_run env m db).1.2 := by
  simp only [m_run]
  split
  · exact m_run_check_inv env _ _ (reset_monitor_inv env.now m db h)
  · exact m_run_check_inv env m db h

theorem run_inv (env : RunEnv) (m : Monitor) (db : MonitorDb)
    (h : alert_inv m db) :
    alert_inv (run env m db).1.1 (run env m db).1.2 := by
  unfold run
  split
  · exact h
  · have h1 := m_run_inv env { m with monitoring := true } db
      (alert_inv_congr rfl rfl rfl rfl h)
    exact alert_inv_congr rfl rfl rfl rfl h1

theorem set_checks_enabled_status_inv (now : Nat) (b : Bool) (m : Monitor)
    (db : MonitorDb) (h : alert_inv m db) :
    alert_inv (set_checks_enabled_status now b m db).1.1
      (set_checks_enabled_status now b m db).1.2 := by
  unfold set_checks_enabled_status
  split
  · exact h
  · dsimp only
    split
    · exact reset_monitor_inv now { m with checks_enabled := b } db
        (alert_inv_congr rfl rfl rfl rfl h)
    · exact alert_inv_congr rfl rfl rfl rfl h

theorem set_alerts_enabled_status_inv (b : Bool) (m : Monitor)
    (db : MonitorDb) (h : alert_inv m db) :
    alert_inv (set_alerts_enabled_status b m db).1.1
      (set_alerts_enabled_status b m db).1.2 := by
  unfold set_alerts_enabled_status
  split
  · exact h
  · exact alert_inv_congr rfl rfl rfl rfl h

theorem apply_op_inv (m : Monitor) (db : MonitorDb) (op : MonitorOp)
    (h : alert_inv m db) :
    alert_inv (apply_op m db op).1 (apply_op m db op).2 := by
  cases op with
  | runCheck env => exact run_inv env m db h
  | resetMon now => exact reset_monitor_inv now m db h
  | setChecks now b => exact set_checks_enabled_status_inv now b m db h
  | setAlerts b => exact set_alerts_enabled_status_inv b m db h

theorem apply_ops_inv (ops : List MonitorOp) :
    ∀ (m : Monitor) (db : MonitorDb), alert_inv m db →
      alert_inv (apply_ops m db ops).1 (apply_ops m db ops).2 := by
  induction ops with
  | nil => intro m db h; exact h
  | cons op ops ih =>
    intro m db h
    exact ih _ _ (apply_op_inv m db op h)

/-- C1 (amended): over any sequence of completed monitor operations
(pipeline runs, resets, enabled-status changes) from a state satisfying
the alert-tracking invariant, the invariant is preserved: `alert_id`,
when set, references an open alert row of the monitor; every monitor in
state DOWN references an open alert row (so it has at least one open
interval); and every monitor in state UP references none.  The original
claim's at-most-one-open-interval bound does not hold — a DOWN→UNKNOWN
transition leaves the previous interval open and a later UNKNOWN→DOWN
transition opens a second one (see the counterexample theorem). -/
theorem C1_alert_invariant (m0 : Monitor) (db0 : MonitorDb)
    (ops : List MonitorOp) (h : alert_inv m0 db0) :
    alert_inv (apply_ops m0 db0 ops).1 (apply_ops m0 db0 ops).2 ∧
      ((apply_ops m0 db0 ops).1.state = .DOWN →
        ∃ a ∈ (apply_ops m0 db0 ops).2.alerts,
          a.monitor_id = (apply_ops m0 db0 ops).1.id ∧ a.end_ts = 0) := by
  have hinv := apply_ops_inv ops m0 db0 h
  refine ⟨hinv, ?_⟩
  intro hdown
  obtain ⟨hok, href, hdel, hdownref, hup⟩ := hinv
  have hsome := hdownref hdown
  cases halt : (apply_ops m0 db0 ops).1.alert_id with
  | none => rw [halt] at hsome; simp at hsome
  | some i =>
    rcases href i halt with ⟨h1, h2, a, ha, h3, h4, h5⟩
    exact ⟨a, ha, h5, h4⟩

/-- Witness for `C1_alert_invariant`: the hypothesis holds for a freshly
created monitor with an empty alert table, and the theorem applies to it
over the concrete DOWN/UNKNOWN/DOWN operation sequence. -/
theorem C1_alert_invariant_witness :
    alert_inv (init_monitor 7) init_monitor_db ∧
      (alert_inv (apply_ops (init_monitor 7) init_monitor_db two_open_alerts_seq).1
          (apply_ops (init_monitor 7) init_monitor_db two_open_alerts_seq).2 ∧
        ((apply_ops (init_monitor 7) init_monitor_db two_open_alerts_seq).1.state = .DOWN →
          ∃ a ∈ (apply_ops (init_monitor 7) init_monitor_db two_open_alerts_seq).2.alerts,
            a.monitor_id = (apply_ops (init_monitor 7) init_monitor_db two_open_alerts_seq).1.id ∧
              a.end_ts = 0)) :=
  have hinit : alert_inv (init_monitor 7) init_monitor_db := by
    refine ⟨⟨by decide, by decide, by decide⟩, ?_, rfl, ?_, ?_⟩
    · intro i hi
      cases hi
    · intro hst
      simp [init_monitor] at hst
    · intro hst
      simp [init_monitor] at hst
  ⟨hinit, C1_alert_invariant (init_monitor 7) init_monitor_db two_open_alerts_seq hinit⟩

/-- C1 counterexample: from a freshly created monitor, the reachable
outcome sequence DOWN, then UNKNOWN six times (crossing the unknown
threshold), then DOWN again leaves two alert rows with end_ts = 0 for
this single monitor, refuting "at most one interval with end == 0" (and
"exactly one such open interval" for a DOWN monitor). -/
theorem C1_counterexample_two_open_alerts :
    ((apply_ops (init_monitor 7) init_monitor_db two_open_alerts_seq).2.alerts.filter
        (fun a => a.end_ts = 0)).length = 2 ∧
      (apply_ops (init_monitor 7) init_monitor_db two_open_alerts_seq).1.state = .DOWN := by
  decide

/-! ## C3 : UP→DOWN hysteresis -/

theorem update_consecutive_checks_last (st : CheckState) (m : Monitor) :
    (update_consecutive_checks st m).last_check_state = some st := by
  unfold update_consecutive_checks
  dsimp only

theorem update_consecutive_checks_cc (st : CheckState) (m : Monitor) :
    (update_consecutive_checks st m).consecutive_checks =
      if some st = m.last_check_state then m.consecutive_checks + 1 else 0 := by
  unfold update_consecutive_checks
  dsimp only
  split <;> rfl

theorem process_check_up_down_low (now : Nat) (j : Int) (msg : String)
    (m : Monitor) (db : MonitorDb) (hst : m.state = .UP)
    (hc : (update_consecutive_checks .DOWN m).consecutive_checks < DOWN_THRESHOLD) :
    (process_check now j .DOWN msg m db).1.1 = update_consecutive_checks .DOWN m ∧
      (process_check now j .DOWN msg m db).1.2 = db ∧
      (process_check now j .DOWN msg m db).2 = 30 := by
  have hs : (update_consecutive_checks CheckState.DOWN m).state = CheckState.UP := by
    rw [(update_consecutive_checks_fields CheckState.DOWN m).2.1, hst]
  have hnot : ¬ (DOWN_THRESHOLD ≤
      (update_consecutive_checks CheckState.DOWN m).consecutive_checks) := by omega
  unfold process_check handle_check_result
  simp [hs, hnot]

theorem process_check_up_down_high (now : Nat) (j : Int) (msg : String)
    (m : Monitor) (db : MonitorDb) (hst : m.state = .UP)
    (hc : DOWN_THRESHOLD ≤ (update_consecutive_checks .DOWN m).consecutive_checks) :
    (process_check now j .DOWN msg m db).1.1.state = .DOWN := by
  have hs : (update_consecutive_checks CheckState.DOWN m).state = CheckState.UP := by
    rw [(update_consecutive_checks_fields CheckState.DOWN m).2.1, hst]
  unfold process_check handle_check_result
  simp [hs, hc, state_change, set_down, txn_create_alert]

/-- C3: from a monitor in state UP, a raw DOWN observation whose updated
consecutive counter is still below DOWN_THRESHOLD (3) leaves the state UP
and schedules the monitor again after 30 seconds; and since the counter
resets to 0 when the outcome changes and increments on repetition, a
monitor in state UP whose last outcome was not DOWN stays UP through
three consecutive DOWN observations and transitions to DOWN exactly on
the fourth. -/
theorem C3_up_down_hysteresis (p1 p2 p3 p4 : Nat × Int × String)
    (m : Monitor) (db : MonitorDb) (hup : m.state = .UP)
    (hlast : m.last_check_state ≠ some .DOWN) :
    (∀ (q : Nat × Int × String) (m1 : Monitor) (db1 : MonitorDb),
        m1.state = .UP →
        (update_consecutive_checks .DOWN m1).consecutive_checks < DOWN_THRESHOLD →
          (down_obs q (m1, db1)).1.state = .UP ∧
            (process_check q.1 q.2.1 .DOWN q.2.2 m1 db1).2 = 30) ∧
      (down_obs p1 (m, db)).1.state = .UP ∧
      (down_obs p2 (down_obs p1 (m, db))).1.state = .UP ∧
      (down_obs p3 (down_obs p2 (down_obs p1 (m, db)))).1.state = .UP ∧
      (down_obs p4 (down_obs p3 (down_obs p2 (down_obs p1 (m, db))))).1.state = .DOWN := by
  have step_low : ∀ (q : Nat × Int × String) (m1 : Monitor) (db1 : MonitorDb),
      m1.state = .UP →
      (update_consecutive_checks .DOWN m1).consecutive_checks < DOWN_THRESHOLD →
      (down_obs q (m1, db1)).1 = update_consecutive_checks .DOWN m1 ∧
        (process_check q.1 q.2.1 .DOWN q.2.2 m1 db1).2 = 30 := by
    intro q m1 db1 h1 h2
    exact ⟨(process_check_up_down_low q.1 q.2.1 q.2.2 m1 db1 h1 h2).1,
           (process_check_up_down_low q.1 q.2.1 q.2.2 m1 db1 h1 h2).2.2⟩
  have step_low_state : ∀ (q : Nat × Int × String) (m1 : Monitor) (db1 : MonitorDb),
      m1.state = .UP →
      (update_consecutive_checks .DOWN m1).consecutive_checks < DOWN_THRESHOLD →
      (down_obs q (m1, db1)).1.state = .UP := by
    intro q m1 db1 h1 h2
    rw [(step_low q m1 db1 h1 h2).1, (update_consecutive_checks_fields _ m1).2.1, h1]
  have hcc0 : (update_consecutive_checks CheckState.DOWN m).consecutive_checks = 0 := by
    rw [update_consecutive_checks_cc, if_neg (fun hcontra => hlast hcontra.symm)]
  have hm1 : (down_obs p1 (m, db)).1 = update_consecutive_checks CheckState.DOWN m :=
    (step_low p1 m db hup (by rw [hcc0]; decide)).1
  have hst1 : (down_obs p1 (m, db)).1.state = CheckState.UP := by
    rw [hm1, (update_consecutive_checks_fields _ m).2.1, hup]
  have hlast1 : (down_obs p1 (m, db)).1.last_check_state = some CheckState.DOWN := by
    rw [hm1, update_consecutive_checks_last]
  have hcc1 : (down_obs p1 (m, db)).1.consecutive_checks = 0 := by
    rw [hm1, hcc0]
  have hupd2 : (update_consecutive_checks CheckState.DOWN
      (down_obs p1 (m, db)).1).consecutive_checks = 1 := by
    rw [update_consecutive_checks_cc, hlast1, if_pos rfl, hcc1]
  have hm2 : (down_obs p2 (down_obs p1 (m, db))).1 =
      update_consecutive_checks CheckState.DOWN (down_obs p1 (m, db)).1 :=
    (step_low p2 (down_obs p1 (m, db)).1 (down_obs p1 (m, db)).2 hst1
      (by rw [hupd2]; decide)).1
  have hst2 : (down_obs p2 (down_obs p1 (m, db))).1.state = CheckState.UP := by
    rw [hm2, (update_consecutive_checks_fields _ _).2.1, hst1]
  have hlast2 : (down_obs p2 (down_obs p1 (m, db))).1.last_check_state =
      some CheckState.DOWN := by
    rw [hm2, update_consecutive_checks_last]
  have hcc2 : (down_obs p2 (down_obs p1 (m, db))).1.consecutive_checks = 1 := by
    rw [hm2, hupd2]
  have hupd3 : (update_consecutive_checks CheckState.DOWN
      (down_obs p2 (down_obs p1 (m, db))).1).consecutive_checks = 2 := by
    rw [update_consecutive_checks_cc, hlast2, if_pos rfl, hcc2]
  have hm3 : (down_obs p3 (down_obs p2 (down_obs p1 (m, db)))).1 =
      update_consecutive_checks CheckState.DOWN (down_obs p2 (down_obs p1 (m, db))).1 :=
    (step_low p3 (down_obs p2 (down_obs p1 (m, db))).1
      (down_obs p2 (down_obs p1 (m, db))).2 hst2 (by rw [hupd3]; decide)).1
  have hst3 : (down_obs p3 (down_obs p2 (down_obs p1 (m, db)))).1.state = CheckState.UP := by
    rw [hm3, (update_consecutive_checks_fields _ _).2.1, hst2]
  have hlast3 : (down_obs p3 (down_obs p2 (down_obs p1 (m, db)))).1.last_check_state =
      some CheckState.DOWN := by
    rw [hm3, update_consecutive_checks_last]
  have hcc3 : (down_obs p3 (down_obs p2 (down_obs p1 (m, db)))).1.consecutive_checks = 2 := by
    rw [hm3, hupd3]
  have hupd4 : (update_consecutive_checks CheckState.DOWN
      (down_obs p3 (down_obs p2 (down_obs p1 (m, db)))).1).consecutive_checks = 3 := by
    rw [update_consecutive_checks_cc, hlast3, if_pos rfl, hcc3]
  have hst4 : (down_obs p4 (down_obs p3 (down_obs p2 (down_obs p1 (m, db))))).1.state =
      CheckState.DOWN :=
    process_check_up_down_high p4.1 p4.2.1 p4.2.2
      (down_obs p3 (down_obs p2 (down_obs p1 (m, db)))).1
      (down_obs p3 (down_obs p2 (down_obs p1 (m, db)))).2 hst3 (by rw [hupd4]; decide)
  exact ⟨fun q m1 db1 h1 h2 =>
      ⟨step_low_state q m1 db1 h1 h2, (step_low q m1 db1 h1 h2).2⟩,
    hst1, hst2, hst3, hst4⟩

/-- Witness for `C3_up_down_hysteresis` at a concrete UP monitor (whose
last outcome was UP) and concrete run inputs. -/
theorem C3_up_down_hysteresis_witness :
    up_monitor.state = .UP ∧ up_monitor.last_check_state ≠ some .DOWN ∧
      ((∀ (q : Nat × Int × String) (m1 : Monitor) (db1 : MonitorDb),
          m1.state = .UP →
          (update_consecutive_checks .DOWN m1).consecutive_checks < DOWN_THRESHOLD →
            (down_obs q (m1, db1)).1.state = .UP ∧
              (process_check q.1 q.2.1 .DOWN q.2.2 m1 db1).2 = 30) ∧
        (down_obs c3_p (up_monitor, init_monitor_db)).1.state = .UP ∧
        (down_obs c3_p (down_obs c3_p (up_monitor, init_monitor_db))).1.state = .UP ∧
        (down_obs c3_p (down_obs c3_p (down_obs c3_p
          (up_monitor, init_monitor_db)))).1.state = .UP ∧
        (down_obs c3_p (down_obs c3_p (down_obs c3_p (down_obs c3_p
          (up_monitor, init_monitor_db))))).1.state = .DOWN) :=
  ⟨rfl, by decide,
    C3_up_down_hysteresis c3_p c3_p c3_p c3_p up_monitor init_monitor_db rfl (by decide)⟩

/-! ## C2 : plugin outcome classification -/

/-- C2 (amended): exit codes 0 and 1 classify as raw UP with the parsed
text; exit code 2 classifies as raw DOWN with the parsed text; any other
exit code also classifies as raw DOWN (not UNKNOWN), carrying the raw
combined stdout+stderr bytes; a missing executable classifies as raw
UNKNOWN with the error message. -/
theorem C2_outcome_classification (rc : Int) (stdout_data stderr_data : ByteStr) :
    ((rc = 0 ∨ rc = 1) →
      classify_result (run_plugin (.proc rc stdout_data stderr_data)) =
        (.UP, .str (parse_plugin_output (stdout_data ++ stderr_data)).1)) ∧
    (rc = 2 →
      classify_result (run_plugin (.proc rc stdout_data stderr_data)) =
        (.DOWN, .str (parse_plugin_output (stdout_data ++ stderr_data)).1)) ∧
    (¬ (rc = 0 ∨ rc = 1 ∨ rc = 2) →
      classify_result (run_plugin (.proc rc stdout_data stderr_data)) =
        (.DOWN, .bytes (stdout_data ++ stderr_data))) ∧
    classify_result (run_plugin .fileNotFound) =
      (.UNKNOWN, .str "executable not found") := by
  refine ⟨?_, ?_, ?_, rfl⟩
  · intro h
    rcases h with rfl | rfl <;>
      simp [run_plugin, classify_result, STATUS_OK, STATUS_WARNING, STATUS_CRITICAL]
  · intro h
    subst h
    simp [run_plugin, classify_result, STATUS_OK, STATUS_WARNING, STATUS_CRITICAL]
  · intro h
    have hcond : ¬ (rc = STATUS_OK ∨ rc = STATUS_WARNING ∨ rc = STATUS_CRITICAL) := by
      simp only [STATUS_OK, STATUS_WARNING, STATUS_CRITICAL]
      exact h
    simp only [run_plugin]
    rw [if_neg hcond]
    rfl

/-- Witness for `C2_outcome_classification` at exit code 1 (WARNING). -/
theorem C2_outcome_classification_witness :
    ((1 : Int) = 0 ∨ (1 : Int) = 1) ∧
      classify_result (run_plugin (.proc 1 [79] [75])) =
        (.UP, .str (parse_plugin_output ([79] ++ [75])).1) :=
  ⟨Or.inr rfl, (C2_outcome_classification 1 [79] [75]).1 (Or.inr rfl)⟩

/-- C2 counterexample: a plugin exiting with code 3 is classified raw
DOWN (the code raises MonitorFailedError for every exit code outside
{0, 1, 2}), not raw UNKNOWN as the claim states. -/
theorem C2_counterexample_exit3_is_down :
    (classify_result (run_plugin (.proc 3 [79, 75] []))).1 = .DOWN ∧
      (classify_result (run_plugin (.proc 3 [79, 75] []))).1 ≠ .UNKNOWN := by
  decide

/-! ## C7 : message storage -/

theorem utf8_decode_go_length_le (onErr : List Char) (h : onErr.length ≤ 1) :
    ∀ (fuel : Nat) (bs : List Nat), (utf8_decode_go onErr fuel bs).length ≤ fuel := by
  intro fuel
  induction fuel with
  | zero => intro bs; simp [utf8_decode_go]
  | succ n ih =>
    intro bs
    cases bs with
    | nil => simp [utf8_decode_go]
    | cons b0 rest =>
      cases rest with
      | nil =>
        simp only [utf8_decode_go]
        split_ifs <;>
          (try simp only [List.length_cons, List.length_append, List.length_nil]) <;>
          first
            | exact Nat.succ_le_succ (ih _)
            | exact le_trans (Nat.add_le_add h (ih _)) (by omega)
            | exact le_trans h (by omega)
      | cons b1 rest2 =>
        cases rest2 with
        | nil =>
          simp only [utf8_decode_go]
          split_ifs <;>
            (try simp only [List.length_cons, List.length_append, List.length_nil]) <;>
            first
              | exact Nat.succ_le_succ (ih _)
              | exact le_trans (Nat.add_le_add h (ih _)) (by omega)
              | exact le_trans h (by omega)
        | cons b2 rest3 =>
          cases rest3 with
          | nil =>
            simp only [utf8_decode_go]
            split_ifs <;>
              (try simp only [List.length_cons, List.length_append, List.length_nil]) <;>
              first
                | exact Nat.succ_le_succ (ih _)
                | exact le_trans (Nat.add_le_add h (ih _)) (by omega)
                | exact le_trans h (by omega)
          | cons b3 rest4 =>
            simp only [utf8_decode_go]
            split_ifs <;>
              (try simp only [List.length_cons, List.length_append, List.length_nil]) <;>
              first
                | exact Nat.succ_le_succ (ih _)
                | exact le_trans (Nat.add_le_add h (ih _)) (by omega)

theorem store_msg_length_le (m : PluginMsg) : (store_msg m).length ≤ 199 := by
  cases m with
  | str s =>
    show (s.data.take 199).length ≤ 199
    rw [List.length_take]
    exact Nat.min_le_left _ _
  | bytes b =>
    show (utf8_decode [] (b.take 199)).length ≤ 199
    unfold utf8_decode
    refine le_trans (utf8_decode_go_length_le [] (by simp) _ _) ?_
    rw [List.length_take]
    exact Nat.min_le_left _ _

/-- C7 (amended): the stored message is at most 199 characters long (a
text message keeps its first 199 code points; a byte message keeps its
first 199 bytes), and a byte message is decoded as UTF-8 with
errors='ignore', so ill-formed subparts are dropped — not replaced as
the claim states (see the counterexample theorem). -/
theorem C7_message_storage (m : PluginMsg) (b : ByteStr) :
    (store_msg m).length ≤ 199 ∧
      store_msg (.bytes b) = String.mk (utf8_decode [] (b.take 199)) :=
  ⟨store_msg_length_le m, rfl⟩

/-- C7 counterexample: for plugin byte output 0x61 0xFF 0x62 the code
stores "ab" — the invalid byte 0xFF is dropped — while decoding with
lossy replacement as the claim states would store "a�b"; the two
stored messages differ. -/
theorem C7_counterexample_ignore_not_replace :
    store_msg (.bytes [97, 255, 98]) = "ab" ∧
      store_msg_spec (.bytes [97, 255, 98]) = "a�b" ∧
      store_msg (.bytes [97, 255, 98]) ≠ store_msg_spec (.bytes [97, 255, 98]) := by
  decide

/-! ## C8 : argument validation -/

theorem find_missing_required_none_iff (arg_spec : List ParamSpec) (keys : List String) :
    find_missing_required arg_spec keys = none ↔
      ∀ a ∈ arg_spec, a.required = true → a.name ∈ keys := by
  unfold find_missing_required
  rw [List.find?_eq_none]
  simp

theorem find_missing_required_some_spec (arg_spec : List ParamSpec)
    (keys : List String) (a : ParamSpec)
    (h : find_missing_required arg_spec keys = some a) :
    a ∈ arg_spec ∧ a.required = true ∧ a.name ∉ keys := by
  unfold find_missing_required at h
  have h1 := List.mem_of_find?_eq_some h
  have h2 := List.find?_some h
  simp at h2
  exact ⟨h1, h2.1, h2.2⟩

theorem find_invalid_key_none_iff (arg_spec : List ParamSpec) (keys : List String) :
    find_invalid_key arg_spec keys = none ↔
      ∀ k ∈ keys, k ∈ arg_spec.map ParamSpec.name := by
  unfold find_invalid_key
  rw [List.find?_eq_none]
  simp

theorem find_invalid_key_some_spec (arg_spec : List ParamSpec)
    (keys : List String) (k : String)
    (h : find_invalid_key arg_spec keys = some k) :
    k ∈ keys ∧ k ∉ arg_spec.map ParamSpec.name := by
  unfold find_invalid_key at h
  have h1 := List.mem_of_find?_eq_some h
  have h2 := List.find?_some h
  simp at h2
  refine ⟨h1, ?_⟩
  simpa using h2

/-- C8: `validate_monitor_args` raises InvalidArguments exactly when some
argument key is not the name of any parameter of the definition, or
permit_missing is false and some required parameter has no argument key;
in every other case it returns True (the embedding is pure, so no other
state is touched). -/
theorem C8_validate_monitor_args (arg_spec : List ParamSpec)
    (monitor_args : List (String × String)) (permit_missing : Bool) :
    ((∃ e, validate_monitor_args arg_spec monitor_args permit_missing = .error e) ↔
      ((∃ k ∈ monitor_args.map Prod.fst, k ∉ arg_spec.map ParamSpec.name) ∨
        (permit_missing = false ∧ ∃ a ∈ arg_spec, a.required = true ∧
          a.name ∉ monitor_args.map Prod.fst))) ∧
    (validate_monitor_args arg_spec monitor_args permit_missing = .ok true ↔
      ¬ ((∃ k ∈ monitor_args.map Prod.fst, k ∉ arg_spec.map ParamSpec.name) ∨
        (permit_missing = false ∧ ∃ a ∈ arg_spec, a.required = true ∧
          a.name ∉ monitor_args.map Prod.fst))) := by
  cases hpm : permit_missing with
  | false =>
    cases hm : find_missing_required arg_spec (monitor_args.map Prod.fst) with
    | some a =>
      have hspec := find_missing_required_some_spec _ _ _ hm
      have hres : validate_monitor_args arg_spec monitor_args false =
          Except.error ("missing argument " ++ a.name) := by
        simp only [validate_monitor_args]
        rw [if_pos trivial, hm]
      constructor
      · constructor
        · intro _
          exact Or.inr ⟨rfl, a, hspec.1, hspec.2.1, hspec.2.2⟩
        · intro _
          exact ⟨_, hres⟩
      · constructor
        · intro hok
          rw [hres] at hok
          exact Except.noConfusion hok
        · intro hnot
          exact absurd (Or.inr ⟨rfl, a, hspec.1, hspec.2.1, hspec.2.2⟩) hnot
    | none =>
      have hmiss := (find_missing_required_none_iff arg_spec (monitor_args.map Prod.fst)).mp hm
      cases hk : find_invalid_key arg_spec (monitor_args.map Prod.fst) with
      | some k =>
        have hspec := find_invalid_key_some_spec _ _ _ hk
        have hres : validate_monitor_args arg_spec monitor_args false =
            Except.error ("invalid argument " ++ k) := by
          simp only [validate_monitor_args]
          rw [if_pos trivial, hm, hk]
        constructor
        · constructor
          · intro _
            exact Or.inl ⟨k, hspec.1, hspec.2⟩
          · intro _
            exact ⟨_, hres⟩
        · constructor
          · intro hok
            rw [hres] at hok
            exact Except.noConfusion hok
          · intro hnot
            exact absurd (Or.inl ⟨k, hspec.1, hspec.2⟩) hnot
      | none =>
        have hvalid := (find_invalid_key_none_iff arg_spec (monitor_args.map Prod.fst)).mp hk
        have hres : validate_monitor_args arg_spec monitor_args false = .ok true := by
          simp only [validate_monitor_args]
          rw [if_pos trivial, hm, hk]
        have hnP : ¬ ((∃ k ∈ monitor_args.map Prod.fst, k ∉ arg_spec.map ParamSpec.name) ∨
            (false = false ∧ ∃ a ∈ arg_spec, a.required = true ∧
              a.name ∉ monitor_args.map Prod.fst)) := by
          rintro (⟨k, hk1, hk2⟩ | ⟨-, a, ha, hr, hnm⟩)
          · exact hk2 (hvalid k hk1)
          · exact hnm (hmiss a ha hr)
        constructor
        · constructor
          · rintro ⟨e, he⟩
            rw [hres] at he
            exact Except.noConfusion he
          · intro hp
            exact absurd hp hnP
        · exact ⟨fun _ => hnP, fun _ => hres⟩
  | true =>
    cases hk : find_invalid_key arg_spec (monitor_args.map Prod.fst) with
    | some k =>
      have hspec := find_invalid_key_some_spec _ _ _ hk
      have hres : validate_monitor_args arg_spec monitor_args true =
          Except.error ("invalid argument " ++ k) := by
        simp only [validate_monitor_args]
        rw [if_neg (by decide), hk]
      constructor
      · constructor
        · intro _
          exact Or.inl ⟨k, hspec.1, hspec.2⟩
        · intro _
          exact ⟨_, hres⟩
      · constructor
        · intro hok
          rw [hres] at hok
          exact Except.noConfusion hok
        · intro hnot
          exact absurd (Or.inl ⟨k, hspec.1, hspec.2⟩) hnot
    | none =>
      have hvalid := (find_invalid_key_none_iff arg_spec (monitor_args.map Prod.fst)).mp hk
      have hres : validate_monitor_args arg_spec monitor_args true = .ok true := by
        simp only [validate_monitor_args]
        rw [if_neg (by decide), hk]
      have hnP : ¬ ((∃ k ∈ monitor_args.map Prod.fst, k ∉ arg_spec.map ParamSpec.name) ∨
          (true = false ∧ ∃ a ∈ arg_spec, a.required = true ∧
            a.name ∉ monitor_args.map Prod.fst)) := by
        rintro (⟨k, hk1, hk2⟩ | ⟨hfalse, -⟩)
        · exact hk2 (hvalid k hk1)
        · exact absurd hfalse (by decide)
      constructor
      · constructor
        · rintro ⟨e, he⟩
          rw [hres] at he
          exact Except.noConfusion he
        · intro hp
          exact absurd hp hnP
      · exact ⟨fun _ => hnP, fun _ => hres⟩

/-- Witness for `C8_validate_monitor_args` at a concrete definition with
one required parameter and a concrete argument mapping. -/
theorem C8_validate_monitor_args_witness :
    ((∃ e, validate_monitor_args [⟨"host", true, ""⟩] [("host", "h")] false = .error e) ↔
      ((∃ k ∈ ([("host", "h")] : List (String × String)).map Prod.fst,
          k ∉ ([⟨"host", true, ""⟩] : List ParamSpec).map ParamSpec.name) ∨
        (false = false ∧ ∃ a ∈ ([⟨"host", true, ""⟩] : List ParamSpec), a.required = true ∧
          a.name ∉ ([("host", "h")] : List (String × String)).map Prod.fst))) ∧
    (validate_monitor_args [⟨"host", true, ""⟩] [("host", "h")] false = .ok true ↔
      ¬ ((∃ k ∈ ([("host", "h")] : List (String × String)).map Prod.fst,
          k ∉ ([⟨"host", true, ""⟩] : List ParamSpec).map ParamSpec.name) ∨
        (false = false ∧ ∃ a ∈ ([⟨"host", true, ""⟩] : List ParamSpec), a.required = true ∧
          a.name ∉ ([("host", "h")] : List (String × String)).map Prod.fst))) :=
  C8_validate_monitor_args [⟨"host", true, ""⟩] [("host", "h")] false

/-! ## C4 : the concurrency cap -/

theorem mgr_steps_bound (events : List ManagerEvent) :
    ∀ (mgr : Manager), valid_trace mgr events = true →
      mgr.num_running_jobs ≤ mgr.max_concurrent_jobs + 1 →
      (mgr_steps mgr events).num_running_jobs ≤
          (mgr_steps mgr events).max_concurrent_jobs + 1 ∧
        (mgr_steps mgr events).max_concurrent_jobs = mgr.max_concurrent_jobs := by
  induction events with
  | nil =>
    intro mgr _ h
    exact ⟨h, rfl⟩
  | cons e es ih =>
    intro mgr hv h
    have hv2 : valid_trace (mgr_step mgr e) es = true := by
      simp only [valid_trace, Bool.and_eq_true] at hv
      exact hv.2
    have hstep : (mgr_step mgr e).num_running_jobs ≤
        (mgr_step mgr e).max_concurrent_jobs + 1 ∧
        (mgr_step mgr e).max_concurrent_jobs = mgr.max_concurrent_jobs := by
      cases e with
      | dispatch p r =>
        simp only [mgr_step, run_monitor_dispatch]
        split_ifs with h1 h2
        · exact ⟨h, rfl⟩
        · exact ⟨h, rfl⟩
        · refine ⟨?_, rfl⟩
          show mgr.num_running_jobs + 1 ≤ mgr.max_concurrent_jobs + 1
          omega
      | finish b =>
        refine ⟨?_, rfl⟩
        show mgr.num_running_jobs - 1 ≤ mgr.max_concurrent_jobs + 1
        omega
    simp only [mgr_steps]
    obtain ⟨h1, h2⟩ := ih (mgr_step mgr e) hv2 hstep.1
    exact ⟨h1, h2.trans hstep.2⟩

/-- C4 (amended): over every valid event trace from an idle manager, the
in-flight count never exceeds max_concurrent_jobs + 1 (it can reach
cap + 1, so the original "never exceeds max_concurrent_jobs" bound is off
by one — see the counterexample theorem); a dispatch is deferred
(deferred counter incremented, monitor rescheduled with the delay drawn
by randint(10, 30), run not started) exactly when the count strictly
exceeds the cap, and otherwise the run starts and the count increments;
both the normal and the raising exit path of a run decrement the count. -/
theorem C4_concurrency_cap (events : List ManagerEvent) (mgr0 : Manager)
    (hstart : mgr0.num_running_jobs = 0)
    (hv : valid_trace mgr0 events = true) :
    (mgr_steps mgr0 events).num_running_jobs ≤ mgr0.max_concurrent_jobs + 1 ∧
    (∀ (mgr : Manager) (r : Nat),
        mgr.max_concurrent_jobs < mgr.num_running_jobs →
          run_monitor_dispatch mgr true r =
            ({ mgr with jobs_deferred := mgr.jobs_deferred + 1 }, some r)) ∧
    (∀ (mgr : Manager) (r : Nat),
        ¬ mgr.max_concurrent_jobs < mgr.num_running_jobs →
          run_monitor_dispatch mgr true r =
            ({ mgr with num_running_jobs := mgr.num_running_jobs + 1,
                        total_jobs_run := mgr.total_jobs_run + 1 }, none)) ∧
    (∀ (mgr : Manager) (raised : Bool),
        (run_monitor_finish mgr raised).num_running_jobs =
          mgr.num_running_jobs - 1) := by
  refine ⟨?_, ?_, ?_, fun mgr raised => rfl⟩
  · have hb := mgr_steps_bound events mgr0 hv (by omega)
    rw [← hb.2]
    exact hb.1
  · intro mgr r h
    simp only [run_monitor_dispatch]
    rw [if_neg (by decide), if_pos h]
  · intro mgr r h
    simp only [run_monitor_dispatch]
    rw [if_neg (by decide), if_neg h]

/-- Witness for `C4_concurrency_cap` at the concrete manager with cap 2
and three concurrent dispatches. -/
theorem C4_concurrency_cap_witness :
    c4_mgr.num_running_jobs = 0 ∧ valid_trace c4_mgr c4_events = true ∧
      (mgr_steps c4_mgr c4_events).num_running_jobs ≤ c4_mgr.max_concurrent_jobs + 1 :=
  ⟨rfl, by decide, (C4_concurrency_cap c4_events c4_mgr rfl (by decide)).1⟩

/-- C4 counterexample: with max_concurrent_jobs = 2, three dispatches of
present monitors with no intervening completion form a valid trace after
which three runs are in flight: the third dispatch found
num_running_jobs = 2, which is not strictly greater than the cap, so it
was not deferred and the count exceeded the cap. -/
theorem C4_counterexample_cap_exceeded :
    valid_trace c4_mgr c4_events = true ∧ c4_mgr.max_concurrent_jobs = 2 ∧
      (mgr_steps c4_mgr c4_events).num_running_jobs = 3 := by
  decide

/-! ## C5 : two-phase deletion (the deleted=true update is malformed) -/

/-- C5: deleting `in_flight_monitor` (a monitor whose run is in flight)
emits exactly one SQL operation — the deleted=true update — whose query
has one %s placeholder but which is passed two parameters (a timestamp
and the monitor id), so the driver rejects it and deleted=true is never
recorded; the monitor is still marked deleted in memory, dropped from the
registry, and not purged immediately. -/
theorem C5_delete_while_running_bug :
    (monitor_delete 1000 in_flight_monitor [9, 2]).2.1 =
      [⟨"update active_monitors set deleted=true where id=%s",
        [.nat 1000, .nat 9]⟩] ∧
    count_placeholders "update active_monitors set deleted=true where id=%s" = 1 ∧
    sql_op_ok ⟨"update active_monitors set deleted=true where id=%s",
      [.nat 1000, .nat 9]⟩ = false ∧
    (monitor_delete 1000 in_flight_monitor [9, 2]).1.1.deleted = true ∧
    (monitor_delete 1000 in_flight_monitor [9, 2]).1.2 = [2] ∧
    (monitor_delete 1000 in_flight_monitor [9, 2]).2.2 = false := by
  decide

/-! ## C6 : the pending reset is never performed by a run -/

/-- C6: running a monitor whose pending-reset flag is set does not
perform the reset: because `run` has already set `monitoring`,
`reset_monitor` only re-marks the flag and returns, so after the run the
flag is still set, the state is still DOWN, the consecutive counter is
unchanged, the open alert is still referenced and the alert table is
untouched (the run then skips the check since checks are disabled and
reschedules the default interval). -/
theorem C6_pending_reset_not_performed :
    (run pending_reset_env pending_reset_monitor pending_reset_db).1.1.pending_reset = true ∧
    (run pending_reset_env pending_reset_monitor pending_reset_db).1.1.state = .DOWN ∧
    (run pending_reset_env pending_reset_monitor pending_reset_db).1.1.consecutive_checks = 2 ∧
    (run pending_reset_env pending_reset_monitor pending_reset_db).1.1.alert_id = some 1 ∧
    (run pending_reset_env pending_reset_monitor pending_reset_db).1.2 = pending_reset_db ∧
    (run pending_reset_env pending_reset_monitor pending_reset_db).2 = some 180 := by
  decide

/-! ## C9 : create/delete round trip -/

/-- C9: creating a monitor (validation succeeding, so the insert runs)
and then purging it with no run in flight leaves no rows referencing the
new monitor id in `active_monitors`, `active_monitor_args`,
`active_monitor_alerts`, `active_monitor_contacts`, `object_metadata`,
`object_bindata`, or `monitor_group_active_monitors`.  (The purge never
touches the group-membership table, so the freshness hypothesis — no
pre-existing membership row referencing the auto-increment id, guaranteed
in practice by auto-increment — carries that last conjunct.) -/
theorem C9_create_delete_roundtrip (arg_spec : List ParamSpec) (def_id : Nat)
    (args : List (String × String)) (db db1 : Db) (mid : Nat)
    (hce : create_active_monitor arg_spec def_id args db = .ok (db1, mid))
    (hfresh : ∀ r ∈ db.monitor_group_active_monitors,
      r.active_monitor_id ≠ db.next_monitor_id) :
    no_rows_reference (remove_monitor_from_db db1 mid) mid := by
  unfold create_active_monitor at hce
  cases hval : validate_monitor_args arg_spec args false with
  | error e =>
    rw [hval] at hce
    exact Except.noConfusion hce
  | ok b =>
    rw [hval] at hce
    have hpair := Except.ok.inj hce
    have hdb : ({ db with
        active_monitors := db.active_monitors ++ [⟨db.next_monitor_id, def_id, "UNKNOWN", 0, "", false⟩],
        active_monitor_args := db.active_monitor_args ++
          args.map (fun kv => ⟨db.next_monitor_id, kv.1, kv.2⟩),
        next_monitor_id := db.next_monitor_id + 1 } : Db) = db1 :=
      congrArg Prod.fst hpair
    have hmid : db.next_monitor_id = mid := congrArg Prod.snd hpair
    subst hdb
    subst hmid
    refine ⟨?_, ?_, ?_, ?_, ?_, ?_, ?_⟩
    · intro r hr
      simp only [remove_monitor_from_db, List.mem_filter, decide_eq_true_eq] at hr
      exact hr.2
    · intro r hr
      simp only [remove_monitor_from_db, List.mem_filter, decide_eq_true_eq] at hr
      exact hr.2
    · intro r hr
      simp only [remove_monitor_from_db, List.mem_filter, decide_eq_true_eq] at hr
      exact hr.2
    · intro r hr
      simp only [remove_monitor_from_db, List.mem_filter, decide_eq_true_eq] at hr
      exact hr.2
    · intro r hr
      simp only [remove_monitor_from_db, List.mem_filter, decide_eq_true_eq] at hr
      intro htype
      exact fun hid => hr.2 ⟨htype, hid⟩
    · intro r hr
      simp only [remove_monitor_from_db, List.mem_filter, decide_eq_true_eq] at hr
      intro htype
      exact fun hid => hr.2 ⟨htype, hid⟩
    · intro r hr
      exact hfresh r hr

/-- Witness for `C9_create_delete_roundtrip`: creating a monitor with one
argument in an empty database and purging it leaves no referencing rows. -/
theorem C9_create_delete_roundtrip_witness :
    create_active_monitor [⟨"host", false, "d"⟩] 2 [("host", "h")] c9_db = .ok (c9_db1, 1) ∧
      (∀ r ∈ c9_db.monitor_group_active_monitors, r.active_monitor_id ≠ c9_db.next_monitor_id) ∧
      no_rows_reference (remove_monitor_from_db c9_db1 1) 1 :=
  ⟨by rfl, fun r hr => absurd hr (List.not_mem_nil r),
    C9_create_delete_roundtrip [⟨"host", false, "d"⟩] 2 [("host", "h")] c9_db c9_db1 1
      (by rfl) (fun r hr => absurd hr (List.not_mem_nil r))⟩

/-! ## C10 : idempotent enabled-status setters -/

theorem set_checks_enabled_status_noop (now : Nat) (b : Bool) (m : Monitor)
    (db : MonitorDb) (h : m.checks_enabled = b) :
    set_checks_enabled_status now b m db = ((m, db), []) := by
  unfold set_checks_enabled_status
  rw [if_pos h]

theorem set_alerts_enabled_status_noop (b : Bool) (m : Monitor)
    (db : MonitorDb) (h : m.alerts_enabled = b) :
    set_alerts_enabled_status b m db = ((m, db), []) := by
  unfold set_alerts_enabled_status
  rw [if_pos h]

theorem reset_monitor_checks_enabled (now : Nat) (m : Monitor) (db : MonitorDb) :
    (reset_monitor now m db).1.1.checks_enabled = m.checks_enabled := by
  unfold reset_monitor
  split
  · rfl
  · dsimp only
    split
    · simp [txn_close_alert]
    · rfl

theorem set_checks_enabled_status_flag (now : Nat) (b : Bool) (m : Monitor)
    (db : MonitorDb) :
    (set_checks_enabled_status now b m db).1.1.checks_enabled = b := by
  unfold set_checks_enabled_status
  split
  · rename_i h
    exact h
  · dsimp only
    split
    · rw [reset_monitor_checks_enabled]
    · rfl

theorem set_alerts_enabled_status_flag (b : Bool) (m : Monitor) (db : MonitorDb) :
    (set_alerts_enabled_status b m db).1.1.alerts_enabled = b := by
  unfold set_alerts_enabled_status
  split
  · rename_i h
    exact h
  · rfl

/-- C10: each enabled-status setter returns immediately when the flag
already has the requested value — the monitor and alert table are
unchanged and no effect (database write, reset, scheduled tick) is
produced — and therefore applying either setter twice with the same
value equals applying it once. -/
theorem C10_idempotent_enable_toggles (now now2 : Nat) (b : Bool)
    (m : Monitor) (db : MonitorDb) :
    (m.checks_enabled = b → set_checks_enabled_status now b m db = ((m, db), [])) ∧
    (m.alerts_enabled = b → set_alerts_enabled_status b m db = ((m, db), [])) ∧
    set_checks_enabled_status now2 b (set_checks_enabled_status now b m db).1.1
        (set_checks_enabled_status now b m db).1.2 =
      (((set_checks_enabled_status now b m db).1.1,
        (set_checks_enabled_status now b m db).1.2), []) ∧
    set_alerts_enabled_status b (set_alerts_enabled_status b m db).1.1
        (set_alerts_enabled_status b m db).1.2 =
      (((set_alerts_enabled_status b m db).1.1,
        (set_alerts_enabled_status b m db).1.2), []) :=
  ⟨set_checks_enabled_status_noop now b m db,
   set_alerts_enabled_status_noop b m db,
   set_checks_enabled_status_noop now2 b _ _ (set_checks_enabled_status_flag now b m db),
   set_alerts_enabled_status_noop b _ _ (set_alerts_enabled_status_flag b m db)⟩

/-- Witness for `C10_idempotent_enable_toggles` at a concrete monitor
whose flags are already true. -/
theorem C10_idempotent_enable_toggles_witness :
    up_monitor.checks_enabled = true ∧
      set_checks_enabled_status 5 true up_monitor init_monitor_db =
        ((up_monitor, init_monitor_db), []) :=
  ⟨rfl, (C10_idempotent_enable_toggles 5 6 true up_monitor init_monitor_db).1 rfl⟩

end Irisett
